import Mathlib

/-!
Shallow embedding of the locomotive data summary backend (`src/backend/server.py`)
and proofs about its normalization, refresh, summary-assembly, status and search
logic.

Python strings are modelled as `List Char`; `str.strip()` and
`str.replace('.0', '')` are modelled character-by-character below.  The Mongo
record store is modelled as in-memory lists of records per collection; the four
remote sheet fetches are inputs (`Except` values, an error modelling the fetch
failure raised by `fetch_sheet_data`).  Clock reads (`datetime.utcnow()`) are
modelled by an explicit `now : Nat` parameter (seconds).
-/

/-- Python strings, modelled as lists of characters. -/
abbrev Str := List Char

/-- The characters removed by Python `str.strip()` (ASCII whitespace). -/
def isPySpace (c : Char) : Bool :=
  c = ' ' || c = '\t' || c = '\n' || c = '\r' || c = '\x0b' || c = '\x0c'

/-- Leading-whitespace removal, as in Python `str.lstrip()`. -/
def lstrip (s : Str) : Str := s.dropWhile isPySpace

/-- Trailing-whitespace removal, as in Python `str.rstrip()`. -/
def rstrip (s : Str) : Str := s.rdropWhile isPySpace

/-- Python `str.strip()`: remove leading and trailing whitespace. -/
def strip (s : Str) : Str := rstrip (lstrip s)

/-- Python `s.replace('.0', '')`: remove every non-overlapping occurrence of
the substring `".0"`, scanning left to right (server.py lines 126 and 143). -/
def removeDotZero : Str → Str
  | [] => []
  | [c] => [c]
  | c1 :: c2 :: rest =>
    if c1 = '.' ∧ c2 = '0' then removeDotZero rest
    else c1 :: removeDotZero (c2 :: rest)

/-- `true` iff the string contains the substring `".0"`. -/
def containsDotZero : Str → Bool
  | [] => false
  | [_] => false
  | c1 :: c2 :: rest =>
    if c1 = '.' ∧ c2 = '0' then true else containsDotZero (c2 :: rest)

/-- Identifier normalization applied when ingesting schedule and failure rows
(server.py lines 126, 143): `str(...).replace('.0', '').strip()`. -/
def ingestNormalize (s : Str) : Str := strip (removeDotZero s)

/-- Identifier normalization applied to the path parameter in
`get_loco_summary` (server.py line 204): `str(loco_no).strip()`. -/
def queryNormalize (s : Str) : Str := strip s

theorem removeDotZero_eq_self : ∀ {s : Str}, containsDotZero s = false → removeDotZero s = s
  | [], _ => rfl
  | [_], _ => rfl
  | c1 :: c2 :: rest, h => by
    by_cases hc : c1 = '.' ∧ c2 = '0'
    · rw [containsDotZero, if_pos hc] at h
      exact absurd h (by simp)
    · rw [containsDotZero, if_neg hc] at h
      rw [removeDotZero, if_neg hc, removeDotZero_eq_self h]

theorem lstrip_idem (s : Str) : lstrip (lstrip s) = lstrip s :=
  List.dropWhile_idempotent isPySpace s

theorem rstrip_idem (s : Str) : rstrip (rstrip s) = rstrip s :=
  List.rdropWhile_idempotent isPySpace s

/-- A prefix of a list whose leading whitespace is already removed has no
leading whitespace either. -/
theorem lstrip_eq_self_of_prefix {u t : Str} (hp : u <+: t) (ht : lstrip t = t) :
    lstrip u = u := by
  cases u with
  | nil => rfl
  | cons c u' =>
    obtain ⟨w, hw⟩ := hp
    subst hw
    by_cases hc : isPySpace c = true
    · exfalso
      rw [lstrip, List.cons_append, List.dropWhile_cons_of_pos hc] at ht
      have hlen := congrArg List.length ht
      have hle : (List.dropWhile isPySpace (u' ++ w)).length ≤ (u' ++ w).length :=
        (List.dropWhile_sublist isPySpace).length_le
      simp [List.length_append] at hlen hle
      omega
    · rw [lstrip, List.dropWhile_cons_of_neg hc]

theorem strip_idem (s : Str) : strip (strip s) = strip s := by
  have h1 : lstrip (lstrip s) = lstrip s := lstrip_idem s
  have h2 : rstrip (lstrip s) <+: lstrip s := List.rdropWhile_prefix isPySpace (lstrip s)
  have h3 : lstrip (rstrip (lstrip s)) = rstrip (lstrip s) :=
    lstrip_eq_self_of_prefix h2 h1
  show rstrip (lstrip (rstrip (lstrip s))) = rstrip (lstrip s)
  rw [h3, rstrip_idem]

/-- Whitespace removal never touches a `'.'`: `dropWhile` only removes
whitespace characters. -/
theorem count_dot_dropWhile (l : Str) :
    (l.dropWhile isPySpace).count '.' = l.count '.' := by
  conv_rhs => rw [← List.takeWhile_append_dropWhile isPySpace l]
  rw [List.count_append]
  have h0 : (l.takeWhile isPySpace).count '.' = 0 := by
    rw [List.count_eq_zero]
    intro hmem
    exact absurd (List.mem_takeWhile_imp hmem) (by decide)
  omega

theorem count_dot_rstrip (t : Str) : (rstrip t).count '.' = t.count '.' := by
  rw [rstrip, List.rdropWhile, List.count_reverse, count_dot_dropWhile, List.count_reverse]

/-- `strip` preserves the number of `'.'` characters. -/
theorem count_dot_strip (s : Str) : (strip s).count '.' = s.count '.' := by
  rw [strip, count_dot_rstrip, lstrip, count_dot_dropWhile]

theorem count_dot_removeDotZero_le : ∀ s : Str, (removeDotZero s).count '.' ≤ s.count '.'
  | [] => le_refl _
  | [_] => le_refl _
  | c1 :: c2 :: rest => by
    by_cases hc : c1 = '.' ∧ c2 = '0'
    · rw [removeDotZero, if_pos hc]
      obtain ⟨h1, h2⟩ := hc
      subst h1; subst h2
      have ih := count_dot_removeDotZero_le rest
      simp only [List.count_cons]
      simp
      omega
    · rw [removeDotZero, if_neg hc]
      have ih := count_dot_removeDotZero_le (c2 :: rest)
      rw [List.count_cons, List.count_cons]
      exact Nat.add_le_add_right ih _

/-- Each removed `".0"` occurrence removes exactly one `'.'`, so removal
strictly decreases the dot count whenever an occurrence exists. -/
theorem count_dot_removeDotZero_lt : ∀ {s : Str}, containsDotZero s = true →
    (removeDotZero s).count '.' < s.count '.'
  | [], h => by simp [containsDotZero] at h
  | [_], h => by simp [containsDotZero] at h
  | c1 :: c2 :: rest, h => by
    by_cases hc : c1 = '.' ∧ c2 = '0'
    · rw [removeDotZero, if_pos hc]
      obtain ⟨h1, h2⟩ := hc
      subst h1; subst h2
      have hle := count_dot_removeDotZero_le rest
      simp only [List.count_cons]
      simp
      omega
    · rw [containsDotZero, if_neg hc] at h
      rw [removeDotZero, if_neg hc]
      have ih := count_dot_removeDotZero_lt h
      rw [List.count_cons, List.count_cons]
      exact Nat.add_lt_add_right ih _

/-- The `".0"`-removing normalization strictly decreases the dot count on
any input containing `".0"`; since `strip` preserves dot counts, the result
can never equal a strip-only normal form of the same input. -/
theorem count_dot_ingestNormalize_lt {s : Str} (h : containsDotZero s = true) :
    (ingestNormalize s).count '.' < s.count '.' := by
  rw [ingestNormalize, count_dot_strip]
  exact count_dot_removeDotZero_lt h

/-- A row of a fetched sheet: an ordered mapping of column name to string
value (`clean_dataframe` has already turned every value into a string). -/
abbrev Row := List (Str × Str)

/-- `row.get(key, '')` on a row converted to a dict. -/
def rowGet (row : Row) (key : Str) : Str :=
  match row.find? (fun kv => kv.1 == key) with
  | some kv => kv.2
  | none => []

/-- One document as stored by `refresh_all_data`. -/
structure StoredRecord where
  collection : Str
  loco_no : Str
  data : Row
  updated_at : Nat
deriving DecidableEq

/-- The four Mongo collections used by server.py. -/
structure Db where
  loco_data : List StoredRecord
  schedule_data : List StoredRecord
  failure_data : List StoredRecord
  modifications_data : List StoredRecord
deriving DecidableEq

/-- Store contents plus the module-level `last_refresh_time` (seconds). -/
structure AppState where
  db : Db
  last_refresh_time : Option Nat
deriving DecidableEq

/-- The outcome of `fetch_sheet_data` for each of the four sheets: the parsed
rows, or the exception raised on fetch failure (carrying its detail text). -/
structure SheetFetches where
  loco_list : Except Str (List Row)
  loco_schedules : Except Str (List Row)
  traction_failures : Except Str (List Row)
  wag7_modifications : Except Str (List Row)

/-- The record built for one Loco_list row (server.py lines 110-115): the
identifier is `str(row.get('Loco No.', '')).strip()` — whitespace-stripped
only, with no `.0` removal. -/
def mkLocoRecord (now : Nat) (row : Row) : StoredRecord :=
  { collection := "loco_data".data
    loco_no := strip (rowGet row "Loco No.".data)
    data := row
    updated_at := now }

/-- The record built for one Loco_Schedules row (lines 126-132): the column
header is `'Loco No. '` (trailing space) and the identifier gets
`.replace('.0', '').strip()`. -/
def mkScheduleRecord (now : Nat) (row : Row) : StoredRecord :=
  { collection := "schedule_data".data
    loco_no := ingestNormalize (rowGet row "Loco No. ".data)
    data := row
    updated_at := now }

/-- The record built for one Traction_failures row (lines 143-149): header
`'LOCO No. '`, identifier gets `.replace('.0', '').strip()`. -/
def mkFailureRecord (now : Nat) (row : Row) : StoredRecord :=
  { collection := "failure_data".data
    loco_no := ingestNormalize (rowGet row "LOCO No. ".data)
    data := row
    updated_at := now }

/-- The record built for one WAG7_Modifications row (lines 159-164): header
`'Loco No.'`, identifier whitespace-stripped only. -/
def mkModificationsRecord (now : Nat) (row : Row) : StoredRecord :=
  { collection := "modifications_data".data
    loco_no := strip (rowGet row "Loco No.".data)
    data := row
    updated_at := now }

/-- `refresh_all_data` (server.py lines 94-181).  Lines 102-104 clear the
loco, schedule and failure collections up front; `modifications_data` is not
cleared anywhere in the function.  Each sheet is then fetched in order; a
fetch failure propagates immediately, leaving the store as mutated so far.
On full success `last_refresh_time` is set and the per-collection insert
counts of lines 173-177 (three entries only) are returned. -/
def refresh_all_data (fetches : SheetFetches) (now : Nat) (st : AppState) :
    AppState × Except Str (List (Str × Nat)) :=
  let db0 : Db := { st.db with loco_data := [], schedule_data := [], failure_data := [] }
  match fetches.loco_list with
  | .error e => ({ st with db := db0 }, .error e)
  | .ok loco_df =>
    let loco_records := loco_df.map (mkLocoRecord now)
    let db1 := { db0 with loco_data := db0.loco_data ++ loco_records }
    match fetches.loco_schedules with
    | .error e => ({ st with db := db1 }, .error e)
    | .ok schedule_df =>
      let schedule_records := schedule_df.map (mkScheduleRecord now)
      let db2 := { db1 with schedule_data := db1.schedule_data ++ schedule_records }
      match fetches.traction_failures with
      | .error e => ({ st with db := db2 }, .error e)
      | .ok failure_df =>
        let failure_records := failure_df.map (mkFailureRecord now)
        let db3 := { db2 with failure_data := db2.failure_data ++ failure_records }
        match fetches.wag7_modifications with
        | .error e => ({ st with db := db3 }, .error e)
        | .ok modifications_df =>
          let modifications_records := modifications_df.map (mkModificationsRecord now)
          let db4 := { db3 with
            modifications_data := db3.modifications_data ++ modifications_records }
          ({ db := db4, last_refresh_time := some now },
           .ok [("loco_data".data, loco_records.length),
                ("schedule_data".data, schedule_records.length),
                ("failure_data".data, failure_records.length)])

/-- `REFRESH_INTERVAL_HOURS` (server.py line 40). -/
def REFRESH_INTERVAL_HOURS : Nat := 6

/-- `check_and_refresh_data` (server.py lines 183-189): refresh when no
refresh has happened yet or the last one is older than the interval. -/
def check_and_refresh_data (fetches : SheetFetches) (now : Nat) (st : AppState) :
    AppState × Except Str Unit :=
  match st.last_refresh_time with
  | none =>
    let (st', r) := refresh_all_data fetches now st
    (st', r.map (fun _ => ()))
  | some t =>
    if now - t > REFRESH_INTERVAL_HOURS * 3600 then
      let (st', r) := refresh_all_data fetches now st
      (st', r.map (fun _ => ()))
    else (st, .ok ())

/-- `LocoDetail` (server.py lines 44-46). -/
structure LocoDetail where
  field : Str
  value : Str
deriving DecidableEq

/-- `LocoSchedule` (lines 48-51). -/
structure LocoSchedule where
  incoming_date : Option Str
  sch : Option Str
  outgoing_date : Option Str
deriving DecidableEq

/-- `TractionFailure` (lines 53-63). -/
structure TractionFailure where
  date_failed : Option Str
  icms_message : Option Str
  loco_no : Option Str
  mu_with : Option Str
  div : Option Str
  rly : Option Str
  brief_message : Option Str
  cause_of_failure : Option Str
  component : Option Str
  system : Option Str
deriving DecidableEq

/-- The modifications item type that server.py constructs at line 260 and
names in the `LocoSummaryResponse` annotation at line 70 but never defines
(`ModificationDetail` is an unbound name in the module — see the
name-resolution model below); it is used exactly like `LocoDetail`. -/
structure ModificationDetail where
  field : Str
  value : Str
deriving DecidableEq

/-- `LocoSummaryResponse` (lines 65-71). -/
structure LocoSummaryResponse where
  loco_no : Str
  details : List LocoDetail
  schedules : List LocoSchedule
  failures : List TractionFailure
  modifications : List ModificationDetail
  last_updated : Nat
deriving DecidableEq

/-- Python `str(x).strip() or None`: the stripped value, collapsed to `none`
when empty. -/
def stripOrNone (s : Str) : Option Str :=
  if strip s = [] then none else some (strip s)

/-- The fields excluded from the details/modifications projections
(server.py lines 212 and 257). -/
def detailExcludeFields : List Str := ["Type".data, "Loco No.".data]

/-- The `details` projection of `get_loco_summary` (lines 207-216):
`find_one` on `loco_data`, then the field/value pairs whose key is not
excluded and whose value strips to non-empty (the value is kept unstripped). -/
def detailsFor (db : Db) (loco_no : Str) : List LocoDetail :=
  match db.loco_data.find? (fun r => r.loco_no == loco_no) with
  | some r =>
    (r.data.filter
        (fun kv => !(detailExcludeFields.contains kv.1) && !(strip kv.2 == []))).map
      (fun kv => { field := kv.1, value := kv.2 })
  | none => []

/-- The `schedules` projection (lines 219-230): all matching records (capped
at 1000), each mapped with empty-to-`None` collapsing per display field. -/
def schedulesFor (db : Db) (loco_no : Str) : List LocoSchedule :=
  ((db.schedule_data.filter (fun r => r.loco_no == loco_no)).take 1000).map
    (fun r =>
      { incoming_date := stripOrNone (rowGet r.data "Incoming Date ".data)
        sch := stripOrNone (rowGet r.data "Sch ".data)
        outgoing_date := stripOrNone (rowGet r.data "Outgoing Date ".data) })

/-- The `failures` projection (lines 233-251). -/
def failuresFor (db : Db) (loco_no : Str) : List TractionFailure :=
  ((db.failure_data.filter (fun r => r.loco_no == loco_no)).take 1000).map
    (fun r =>
      { date_failed := stripOrNone (rowGet r.data "Date Failed ".data)
        icms_message := stripOrNone (rowGet r.data "ICMS/ Message ".data)
        loco_no := stripOrNone (rowGet r.data "LOCO No. ".data)
        mu_with := stripOrNone (rowGet r.data "MU with ".data)
        div := stripOrNone (rowGet r.data "Div ".data)
        rly := stripOrNone (rowGet r.data "Rly ".data)
        brief_message := stripOrNone (rowGet r.data "Brief Message ".data)
        cause_of_failure := stripOrNone (rowGet r.data "Cause of Failure ".data)
        component := stripOrNone (rowGet r.data "Component ".data)
        system := stripOrNone (rowGet r.data "System ".data) })

/-- The `modifications` projection (lines 253-260): `find_one` on
`modifications_data`, same exclusion rule as the details projection. -/
def modificationsFor (db : Db) (loco_no : Str) : List ModificationDetail :=
  match db.modifications_data.find? (fun r => r.loco_no == loco_no) with
  | some r =>
    (r.data.filter
        (fun kv => !(detailExcludeFields.contains kv.1) && !(strip kv.2 == []))).map
      (fun kv => { field := kv.1, value := kv.2 })
  | none => []

/-- The 404 detail text of server.py line 265. -/
def noDataMsg (loco_no : Str) : Str :=
  "No data found for loco number: ".data ++ loco_no

/-- The read path of `get_loco_summary` (server.py lines 196-274), given the
state left by the leading `check_and_refresh_data()` call; `now` models the
`datetime.utcnow()` fallback of line 273.  The error carries the HTTP status
code and detail message of the `HTTPException`. -/
def get_loco_summary (st : AppState) (now : Nat) (loco_no_raw : Str) :
    Except (Nat × Str) LocoSummaryResponse :=
  let loco_no := strip loco_no_raw
  let details := detailsFor st.db loco_no
  let schedules := schedulesFor st.db loco_no
  let failures := failuresFor st.db loco_no
  let modifications := modificationsFor st.db loco_no
  if details.isEmpty && schedules.isEmpty && failures.isEmpty && modifications.isEmpty then
    .error (404, noDataMsg loco_no)
  else
    .ok { loco_no := loco_no
          details := details
          schedules := schedules
          failures := failures
          modifications := modifications
          last_updated := st.last_refresh_time.getD now }

/-- `RefreshStatusResponse` (lines 73-77). -/
structure RefreshStatusResponse where
  status : Str
  last_refresh : Option Nat
  next_refresh : Option Nat
  records_count : List (Str × Nat)
deriving DecidableEq

/-- `get_refresh_status` (server.py lines 291-315): live per-collection
counts, state string, and `next_refresh = last_refresh_time + 6h` when a
refresh has succeeded. -/
def get_refresh_status (st : AppState) : RefreshStatusResponse :=
  { status := if st.last_refresh_time.isSome then "active".data else "pending".data
    last_refresh := st.last_refresh_time
    next_refresh := st.last_refresh_time.map (fun t => t + REFRESH_INTERVAL_HOURS * 3600)
    records_count :=
      [("loco_data".data, st.db.loco_data.length),
       ("schedule_data".data, st.db.schedule_data.length),
       ("failure_data".data, st.db.failure_data.length),
       ("modifications_data".data, st.db.modifications_data.length)] }

/-- The characters that carry special meaning in the PCRE-style regex that
`search_locos` builds by interpolating the path parameter unescaped
(server.py line 324), other than `'.'`.  The matcher below gives exact
semantics only to partials free of these characters: for such partials the
interpolated regex is a sequence of literals and any-character wildcards.
Statements about `search_locos` are guarded by this restriction, because
for partials containing `'*'`, `'+'`, `'['`, `'\'` and the like the
embedding does not model the regex engine. -/
def regexMetaChars : List Char :=
  ['\\', '^', '$', '|', '?', '*', '+', '(', ')', '[', ']', '\x7b', '\x7d']

/-- One character of the regex fragment modelled here: `'.'` is the regex
metacharacter matching any character; any other character matches itself
case-insensitively (the store is queried with `$options: "i"`).  Faithful to
the program's interpolated regex only for partials with no character from
`regexMetaChars`. -/
def patCharMatches (p c : Char) : Bool := p = '.' || p.toLower = c.toLower

/-- The interpolated pattern matches at the start of `s`, elementwise. -/
def patMatchesAtStart : Str → Str → Bool
  | [], _ => true
  | _ :: _, [] => false
  | p :: ps, c :: cs => patCharMatches p c && patMatchesAtStart ps cs

/-- `s` matches the regex `.*pat.*`: the pattern matches at some position.
Like `patCharMatches`, this models the program's regex only for partials
with no character from `regexMetaChars`. -/
def regexContains (pat : Str) : Str → Bool
  | [] => patMatchesAtStart pat []
  | c :: cs => patMatchesAtStart pat (c :: cs) || regexContains pat cs

/-- Case-insensitive literal character equality. -/
def litCharMatches (p c : Char) : Bool := p.toLower = c.toLower

/-- `sub` is literally (no metacharacters) at the start of `s`,
case-insensitively. -/
def litMatchesAtStart : Str → Str → Bool
  | [], _ => true
  | _ :: _, [] => false
  | p :: ps, c :: cs => litCharMatches p c && litMatchesAtStart ps cs

/-- `s` contains `sub` as a case-insensitive literal substring — what the
claim asserts of every returned suggestion. -/
def containsCI (sub : Str) : Str → Bool
  | [] => litMatchesAtStart sub []
  | c :: cs => litMatchesAtStart sub (c :: cs) || containsCI sub cs

/-- Byte-order string comparison: the ascending `$sort` on `_id` used by the
search pipeline. -/
def strLe : Str → Str → Bool
  | [], _ => true
  | _ :: _, [] => false
  | a :: as, b :: bs =>
    if a.toNat < b.toNat then true
    else if b.toNat < a.toNat then false
    else strLe as bs

/-- `strLe` as a relation, for sortedness statements. -/
def strLeR (a b : Str) : Prop := strLe a b = true

instance : DecidableRel strLeR := fun a b =>
  inferInstanceAs (Decidable (strLe a b = true))

theorem strLe_total : ∀ a b : Str, strLe a b = true ∨ strLe b a = true
  | [], _ => Or.inl rfl
  | _ :: _, [] => Or.inr rfl
  | a :: as, b :: bs => by
    by_cases h1 : a.toNat < b.toNat
    · left; rw [strLe, if_pos h1]
    · by_cases h2 : b.toNat < a.toNat
      · right; rw [strLe, if_pos h2]
      · have := strLe_total as bs
        rcases this with h | h
        · left; rw [strLe, if_neg h1, if_neg h2]; exact h
        · right; rw [strLe, if_neg h2, if_neg h1]; exact h

theorem strLe_trans : ∀ {a b c : Str},
    strLe a b = true → strLe b c = true → strLe a c = true
  | [], _, _, _, _ => rfl
  | _ :: _, [], _, h1, _ => by rw [strLe] at h1; exact absurd h1 (by simp)
  | _ :: _, _ :: _, [], _, h2 => by rw [strLe] at h2; exact absurd h2 (by simp)
  | a :: as, b :: bs, c :: cs, h1, h2 => by
    rw [strLe] at h1 h2 ⊢
    by_cases hab : a.toNat < b.toNat
    · by_cases hbc : b.toNat < c.toNat
      · rw [if_pos (Nat.lt_trans hab hbc)]
      · by_cases hcb : c.toNat < b.toNat
        · rw [if_neg hbc, if_pos hcb] at h2; exact absurd h2 (by simp)
        · rw [if_pos (by omega : a.toNat < c.toNat)]
    · by_cases hba : b.toNat < a.toNat
      · rw [if_neg hab, if_pos hba] at h1; exact absurd h1 (by simp)
      · rw [if_neg hab, if_neg hba] at h1
        by_cases hbc : b.toNat < c.toNat
        · rw [if_pos (by omega : a.toNat < c.toNat)]
        · by_cases hcb : c.toNat < b.toNat
          · rw [if_neg hbc, if_pos hcb] at h2; exact absurd h2 (by simp)
          · rw [if_neg hbc, if_neg hcb] at h2
            rw [if_neg (by omega : ¬a.toNat < c.toNat),
              if_neg (by omega : ¬c.toNat < a.toNat)]
            exact strLe_trans h1 h2

instance : IsTotal Str strLeR := ⟨strLe_total⟩

instance : IsTrans Str strLeR := ⟨fun _ _ _ => strLe_trans⟩

/-- `search_locos` (server.py lines 317-333), given the state left by
`check_and_refresh_data()`: `$match` by interpolated case-insensitive regex
on `loco_data`, `$group` by `loco_no` (distinct), `$sort` ascending,
`$limit` 20, then the Python-side filter dropping results whose `_id` strips
to the empty string. -/
def search_locos (st : AppState) (partial_loco_no : Str) : List Str :=
  let matched := (st.db.loco_data.filter
      (fun r => regexContains partial_loco_no r.loco_no)).map (fun r => r.loco_no)
  let grouped := matched.dedup
  let sorted := grouped.insertionSort strLeR
  let limited := sorted.take 20
  limited.filter (fun x => !(strip x == []))

/-- The names bound at module level in server.py: imported names (lines
1-14), module-level assignments, class definitions and function definitions.
`ModificationDetail` is nowhere among them. -/
def moduleBoundNames : List String :=
  ["FastAPI", "APIRouter", "HTTPException", "load_dotenv", "CORSMiddleware",
   "AsyncIOMotorClient", "os", "logging", "asyncio", "Path", "BaseModel",
   "Field", "List", "Optional", "Dict", "Any", "uuid", "datetime",
   "timedelta", "pd", "np",
   "ROOT_DIR", "mongo_url", "client", "db", "app", "api_router", "SHEET_ID",
   "SHEET_NAMES", "REFRESH_INTERVAL_HOURS", "last_refresh_time", "logger",
   "LocoDetail", "LocoSchedule", "TractionFailure", "LocoSummaryResponse",
   "RefreshStatusResponse",
   "clean_dataframe", "fetch_sheet_data", "refresh_all_data",
   "check_and_refresh_data", "root", "get_loco_summary", "manual_refresh",
   "get_refresh_status", "search_locos", "startup_event",
   "shutdown_db_client"]

/-- The names the field type annotations of `LocoSummaryResponse` refer to
(server.py lines 65-71); pydantic evaluates these when the class body runs,
i.e. at module load. -/
def locoSummaryResponseAnnotationNames : List String :=
  ["str", "List", "LocoDetail", "LocoSchedule", "TractionFailure",
   "ModificationDetail", "datetime"]

/-- The constructors called on the success path of `get_loco_summary` when
assembling the modifications projection and the composite response
(server.py lines 260 and 267). -/
def getLocoSummarySuccessPathNames : List String :=
  ["ModificationDetail", "LocoSummaryResponse"]

/-- Python name resolution against the module's global scope: `some` when the
name is bound at module level, `none` when referencing it raises NameError
(builtins like `str` aside, which `ModificationDetail` is not). -/
def resolveModuleName (n : String) : Option String :=
  if n ∈ moduleBoundNames then some n else none

/-- An application state with empty collections and no past refresh. -/
def emptyState : AppState :=
  { db := { loco_data := [], schedule_data := [], failure_data := [],
            modifications_data := [] }
    last_refresh_time := none }

/-- The Loco_list row of the spec's concrete scenario. -/
def row27865 : Row :=
  [("Loco No.".data, "27865.0".data), ("Type".data, "WAG7".data),
   ("Zone".data, "SECR".data)]

/-- Fetches delivering the scenario row in Loco_list and nothing else. -/
def fetches27865 : SheetFetches :=
  { loco_list := .ok [row27865]
    loco_schedules := .ok []
    traction_failures := .ok []
    wag7_modifications := .ok [] }

/-- The state after one successful refresh of the scenario data at time 100. -/
def state27865 : AppState := (refresh_all_data fetches27865 100 emptyState).1

/-- C1 (counterexample): the normalization applied when ingesting a schedule
row and the normalization applied to the query path parameter are not the
same function: on the accepted raw form `"27865.0"` ingestion keys the
record under `"27865"` while the query lookup uses `"27865.0"`. -/
theorem c1_normalizations_differ_counterexample :
    ingestNormalize "27865.0".data = "27865".data ∧
    queryNormalize "27865.0".data = "27865.0".data ∧
    ingestNormalize "27865.0".data ≠ queryNormalize "27865.0".data := by
  refine ⟨by decide, by decide, by decide⟩

/-- C1 (amended): the ingestion-side normalization of schedule/failure rows
(`.replace('.0','').strip()`) and the query-time normalization (`.strip()`)
agree exactly on the raw identifiers that contain no `".0"` substring — an
if and only if: on every input containing `".0"` they differ, because
removal strictly decreases the `'.'` count while stripping preserves it.
Only for `".0"`-free raw forms does a lookup resolve to the records
ingestion keyed. -/
theorem c1_normalizations_agree_iff_no_dotzero (s : Str) :
    ingestNormalize s = queryNormalize s ↔ containsDotZero s = false := by
  constructor
  · intro heq
    cases h : containsDotZero s with
    | false => rfl
    | true =>
      exfalso
      have hlt := count_dot_ingestNormalize_lt h
      have hq : (queryNormalize s).count '.' = s.count '.' := count_dot_strip s
      rw [heq, hq] at hlt
      omega
  · intro h
    unfold ingestNormalize queryNormalize
    rw [removeDotZero_eq_self h]

/-- Witness for C1's amended theorem: both directions exercised, at the raw
forms `" 27865 "` (agreement) and `"27865.0"` (forced disagreement). -/
theorem c1_normalizations_agree_iff_witness :
    ingestNormalize " 27865 ".data = queryNormalize " 27865 ".data ∧
    ingestNormalize "27865.0".data ≠ queryNormalize "27865.0".data :=
  ⟨(c1_normalizations_agree_iff_no_dotzero " 27865 ".data).mpr (by decide),
   fun h => absurd ((c1_normalizations_agree_iff_no_dotzero "27865.0".data).mp h) (by decide)⟩

/-- C5 (counterexample): the ingestion normalization is not idempotent:
removing every `".0"` can create a new `".0"` occurrence, so
`normalize("..00") = ".0"` but `normalize(normalize("..00")) = ""`. -/
theorem c5_normalize_not_idempotent_counterexample :
    ingestNormalize "..00".data = ".0".data ∧
    ingestNormalize ".0".data = [] ∧
    ingestNormalize (ingestNormalize "..00".data) ≠ ingestNormalize "..00".data := by
  refine ⟨by decide, by decide, by decide⟩

/-- C5 (amended): the normalization (`'.0'`-removal then whitespace
stripping) is idempotent exactly on the inputs whose normal form has no
remaining `".0"` occurrence — an if and only if: when the normal form still
contains `".0"`, a second application strictly decreases its `'.'` count
and so must change it. -/
theorem c5_normalize_idempotent_iff (s : Str) :
    ingestNormalize (ingestNormalize s) = ingestNormalize s ↔
      containsDotZero (ingestNormalize s) = false := by
  constructor
  · intro heq
    cases h : containsDotZero (ingestNormalize s) with
    | false => rfl
    | true =>
      exfalso
      have hlt := count_dot_ingestNormalize_lt h
      rw [heq] at hlt
      omega
  · intro h
    conv_lhs => rw [ingestNormalize, removeDotZero_eq_self h]
    rw [ingestNormalize, strip_idem]

/-- Witness for C5's amended theorem: both directions exercised, at
`"27865.0"` (idempotent) and `"..00"` (forced non-idempotence). -/
theorem c5_normalize_idempotent_iff_witness :
    ingestNormalize (ingestNormalize "27865.0".data) = ingestNormalize "27865.0".data ∧
    ingestNormalize (ingestNormalize "..00".data) ≠ ingestNormalize "..00".data :=
  ⟨(c5_normalize_idempotent_iff "27865.0".data).mpr (by decide),
   fun h => absurd ((c5_normalize_idempotent_iff "..00".data).mp h) (by decide)⟩

/-- A populated pre-refresh state, reached by one successful refresh in
which every sheet delivered one row for locomotive 27865. -/
def preRefreshState : AppState :=
  (refresh_all_data
    { loco_list := .ok [[("Loco No.".data, "27865".data)]]
      loco_schedules := .ok [[("Loco No. ".data, "27865".data)]]
      traction_failures := .ok [[("LOCO No. ".data, "27865".data)]]
      wag7_modifications := .ok [[("Loco No.".data, "27865".data)]] }
    10 emptyState).1

/-- Fetches in which already the first sheet fails. -/
def firstFetchFails : SheetFetches :=
  { loco_list := .error "Failed to fetch Loco_list data".data
    loco_schedules := .ok []
    traction_failures := .ok []
    wag7_modifications := .ok [] }

/-- C2 (counterexample): when the very first fetch fails, the loco, schedule
and failure collections have already been cleared — the clearing happens
before any fetch, so it is not true that no collection was cleared before
the error. -/
theorem c2_cleared_before_fetch_counterexample :
    (refresh_all_data firstFetchFails 100 preRefreshState).2 =
      .error "Failed to fetch Loco_list data".data ∧
    (refresh_all_data firstFetchFails 100 preRefreshState).1.db.loco_data = [] ∧
    preRefreshState.db.loco_data ≠ [] := by
  refine ⟨rfl, rfl, by decide⟩

/-- C2 (amended): a fetch failure aborts `refresh_all_data` and propagates
the error without touching `last_refresh_time`, but the loco, schedule and
failure collections are cleared up front, before the first fetch; so a
failure leaves every collection whose own fetch did not complete empty (and
earlier collections freshly repopulated), while `modifications_data` — which
is never cleared — keeps its prior contents.  The four conjuncts give the
exact resulting state for a failure at each of the four fetches. -/
theorem c2_fetch_failure_state (st : AppState) (now : Nat) (e : Str)
    (f2 f3 f4 : Except Str (List Row)) (rows1 rows2 rows3 : List Row) :
    refresh_all_data ⟨.error e, f2, f3, f4⟩ now st =
      ({ st with db := { st.db with loco_data := [], schedule_data := [], failure_data := [] } }, .error e)
  ∧ refresh_all_data ⟨.ok rows1, .error e, f3, f4⟩ now st =
      ({ st with db := { st.db with loco_data := rows1.map (mkLocoRecord now), schedule_data := [], failure_data := [] } }, .error e)
  ∧ refresh_all_data ⟨.ok rows1, .ok rows2, .error e, f4⟩ now st =
      ({ st with db := { st.db with loco_data := rows1.map (mkLocoRecord now), schedule_data := rows2.map (mkScheduleRecord now), failure_data := [] } }, .error e)
  ∧ refresh_all_data ⟨.ok rows1, .ok rows2, .ok rows3, .error e⟩ now st =
      ({ st with db := { st.db with loco_data := rows1.map (mkLocoRecord now), schedule_data := rows2.map (mkScheduleRecord now), failure_data := rows3.map (mkFailureRecord now) } }, .error e) :=
  ⟨rfl, rfl, rfl, rfl⟩

/-- A WAG7_Modifications row for the never-cleared-collection bug. -/
def modRow : Row := [("Loco No.".data, "27865".data), ("Mod".data, "done".data)]

/-- Fetches delivering one modifications row and nothing else. -/
def modFetches : SheetFetches :=
  { loco_list := .ok []
    loco_schedules := .ok []
    traction_failures := .ok []
    wag7_modifications := .ok [modRow] }

/-- State after the first successful refresh of `modFetches`. -/
def modState1 : AppState := (refresh_all_data modFetches 100 emptyState).1

/-- State after a second successful refresh of the unchanged source. -/
def modState2 : AppState := (refresh_all_data modFetches 200 modState1).1

/-- C3 (code bug): `refresh_all_data` never clears `modifications_data`
(lines 102-104 clear only the other three collections), so a second refresh
against the unchanged source appends a duplicate copy: the modifications
count goes from 1 to 2 instead of staying 1, while the three cleared
collections keep identical counts. -/
theorem c3_modifications_not_cleared :
    modState1.db.modifications_data.length = 1 ∧
    modState2.db.modifications_data.length = 2 ∧
    modState1.db.loco_data.length = modState2.db.loco_data.length ∧
    modState1.db.schedule_data.length = modState2.db.schedule_data.length ∧
    modState1.db.failure_data.length = modState2.db.failure_data.length := by
  refine ⟨by decide, by decide, by decide, by decide, by decide⟩

/-- C4 (counterexample): ingesting the Loco list row
`{"Loco No.": "27865.0", "Type": "WAG7", "Zone": "SECR"}` does not store the
record under `"27865"`: Loco_list ingestion only strips whitespace (no `.0`
removal, unlike the schedule/failure rows), so the stored identifier is
`"27865.0"` and `get_summary("27865")` finds nothing at all (404), rather
than details containing the Zone pair. -/
theorem c4_scenario_counterexample :
    state27865.db.loco_data.map (fun r => r.loco_no) = ["27865.0".data] ∧
    "27865.0".data ≠ "27865".data ∧
    get_loco_summary state27865 100 "27865".data =
      .error (404, noDataMsg "27865".data) := by
  refine ⟨rfl, by decide, rfl⟩

/-- C4 (amended): ingesting the scenario row stores the record under
`"27865.0"` (whitespace stripping only), and `get_summary("27865.0")` —
the raw form that survives query-time stripping unchanged — returns details
containing exactly the pair `{field: "Zone", value: "SECR"}` and no `Type`
entry. -/
theorem c4_scenario_amended :
    get_loco_summary state27865 100 "27865.0".data =
      .ok { loco_no := "27865.0".data
            details := [{ field := "Zone".data, value := "SECR".data }]
            schedules := []
            failures := []
            modifications := []
            last_updated := 100 } := rfl

/-- C6 (confirmed): `get_loco_summary` fails with the 404 branch exactly when
all four projections for the stripped identifier are empty, and returns the
composite response whenever at least one projection is non-empty.  (This is
the read-path logic of lines 263-274; the unbound `ModificationDetail` name
defect of the module is treated separately in the name-resolution model.) -/
theorem c6_notfound_iff_all_projections_empty (st : AppState) (now : Nat) (raw : Str) :
    (get_loco_summary st now raw = .error (404, noDataMsg (strip raw)) ↔
      (detailsFor st.db (strip raw) = [] ∧ schedulesFor st.db (strip raw) = [] ∧
       failuresFor st.db (strip raw) = [] ∧ modificationsFor st.db (strip raw) = []))
  ∧ (¬ (detailsFor st.db (strip raw) = [] ∧ schedulesFor st.db (strip raw) = [] ∧
        failuresFor st.db (strip raw) = [] ∧ modificationsFor st.db (strip raw) = []) →
      get_loco_summary st now raw =
        .ok { loco_no := strip raw
              details := detailsFor st.db (strip raw)
              schedules := schedulesFor st.db (strip raw)
              failures := failuresFor st.db (strip raw)
              modifications := modificationsFor st.db (strip raw)
              last_updated := st.last_refresh_time.getD now }) := by
  have hcond :
      ((detailsFor st.db (strip raw)).isEmpty && (schedulesFor st.db (strip raw)).isEmpty &&
        (failuresFor st.db (strip raw)).isEmpty &&
        (modificationsFor st.db (strip raw)).isEmpty) = true ↔
      (detailsFor st.db (strip raw) = [] ∧ schedulesFor st.db (strip raw) = [] ∧
       failuresFor st.db (strip raw) = [] ∧ modificationsFor st.db (strip raw) = []) := by
    simp [List.isEmpty_iff, and_assoc]
  constructor
  · constructor
    · intro h
      by_cases hb :
          ((detailsFor st.db (strip raw)).isEmpty && (schedulesFor st.db (strip raw)).isEmpty &&
            (failuresFor st.db (strip raw)).isEmpty &&
            (modificationsFor st.db (strip raw)).isEmpty) = true
      · exact hcond.mp hb
      · rw [get_loco_summary, if_neg hb] at h
        exact absurd h (by simp)
    · intro h
      rw [get_loco_summary, if_pos (hcond.mpr h)]
  · intro h
    rw [get_loco_summary, if_neg (fun hb => h (hcond.mp hb))]

/-- Witness for C6 at the scenario state: the details projection is
non-empty, so `get_loco_summary` returns the composite response. -/
theorem c6_notfound_iff_witness :
    get_loco_summary state27865 100 "27865.0".data =
      .ok { loco_no := strip "27865.0".data
            details := detailsFor state27865.db (strip "27865.0".data)
            schedules := schedulesFor state27865.db (strip "27865.0".data)
            failures := failuresFor state27865.db (strip "27865.0".data)
            modifications := modificationsFor state27865.db (strip "27865.0".data)
            last_updated := state27865.last_refresh_time.getD 100 } :=
  (c6_notfound_iff_all_projections_empty state27865 100 "27865.0".data).2 (by decide)

/-- C8 (counterexample): a fully successful refresh returns counts for only
three collections — `loco_data`, `schedule_data`, `failure_data` — not one
entry per collection for all four data sets: there is no
`modifications_data` entry even though a modifications row was inserted. -/
theorem c8_counts_missing_modifications_counterexample :
    (refresh_all_data modFetches 100 emptyState).2.map (fun counts => counts.map Prod.fst) =
      .ok ["loco_data".data, "schedule_data".data, "failure_data".data] ∧
    (refresh_all_data modFetches 100 emptyState).2.map List.length = .ok 3 ∧
    (refresh_all_data modFetches 100 emptyState).1.db.modifications_data.length = 1 := by
  refine ⟨rfl, rfl, rfl⟩

/-- C8 (amended): on full success `refresh_all_data` sets
`last_refresh_time` to the completion time and returns inserted counts for
the loco, schedule and failure collections only (the modifications count is
omitted); on a failure of any of the four fetches `last_refresh_time` is
left unchanged, so it stays `None` until the first fully successful
refresh. -/
theorem c8_success_counts_and_timestamp (st : AppState) (now : Nat)
    (r1 r2 r3 r4 : List Row) (e : Str) (f2 f3 f4 : Except Str (List Row)) :
    (refresh_all_data ⟨.ok r1, .ok r2, .ok r3, .ok r4⟩ now st).2 =
      .ok [("loco_data".data, r1.length), ("schedule_data".data, r2.length), ("failure_data".data, r3.length)]
  ∧ (refresh_all_data ⟨.ok r1, .ok r2, .ok r3, .ok r4⟩ now st).1.last_refresh_time = some now
  ∧ (refresh_all_data ⟨.error e, f2, f3, f4⟩ now st).1.last_refresh_time = st.last_refresh_time
  ∧ (refresh_all_data ⟨.ok r1, .error e, f3, f4⟩ now st).1.last_refresh_time = st.last_refresh_time
  ∧ (refresh_all_data ⟨.ok r1, .ok r2, .error e, f4⟩ now st).1.last_refresh_time = st.last_refresh_time
  ∧ (refresh_all_data ⟨.ok r1, .ok r2, .ok r3, .error e⟩ now st).1.last_refresh_time = st.last_refresh_time := by
  refine ⟨?_, rfl, rfl, rfl, rfl, rfl⟩
  simp [refresh_all_data]

/-- C9 (confirmed): after a successful refresh completing at `now`,
`get_refresh_status` reports state `"active"`, `last_refresh = now` and
`next_refresh = now + 6h`; for any state with no successful refresh yet it
reports `"pending"` with no `last_refresh` and no `next_refresh`. -/
theorem c9_status_after_refresh (st : AppState) (now : Nat) (r1 r2 r3 r4 : List Row) :
    (get_refresh_status ((refresh_all_data ⟨.ok r1, .ok r2, .ok r3, .ok r4⟩ now st).1)).status = "active".data
  ∧ (get_refresh_status ((refresh_all_data ⟨.ok r1, .ok r2, .ok r3, .ok r4⟩ now st).1)).last_refresh = some now
  ∧ (get_refresh_status ((refresh_all_data ⟨.ok r1, .ok r2, .ok r3, .ok r4⟩ now st).1)).next_refresh =
      some (now + REFRESH_INTERVAL_HOURS * 3600)
  ∧ ∀ st' : AppState, st'.last_refresh_time = none →
      (get_refresh_status st').status = "pending".data ∧
      (get_refresh_status st').last_refresh = none ∧
      (get_refresh_status st').next_refresh = none := by
  refine ⟨rfl, rfl, rfl, ?_⟩
  intro st' h
  rw [get_refresh_status]
  simp [h]

/-- Witness for C9's pending clause at the initial empty state. -/
theorem c9_status_pending_witness :
    (get_refresh_status emptyState).status = "pending".data ∧
    (get_refresh_status emptyState).last_refresh = none ∧
    (get_refresh_status emptyState).next_refresh = none :=
  (c9_status_after_refresh emptyState 0 [] [] [] []).2.2.2 emptyState rfl

/-- C10 (confirmed): `ModificationDetail` is referenced by the
`LocoSummaryResponse` field annotations (evaluated at module load) and by the
success path of `get_loco_summary`, but it is not among the names bound
anywhere at module level in server.py, so resolving it fails — loading the
module (and, were it loaded, building any non-empty summary response) raises
an undefined-name error. -/
theorem c10_modification_detail_unbound :
    "ModificationDetail" ∈ locoSummaryResponseAnnotationNames ∧
    "ModificationDetail" ∈ getLocoSummarySuccessPathNames ∧
    "ModificationDetail" ∉ moduleBoundNames ∧
    resolveModuleName "ModificationDetail" = none := by
  refine ⟨by decide, by decide, by decide, by decide⟩

/-- A state reached by a refresh whose Loco_list sheet held the single
identifier `"278"`. -/
def searchSt278 : AppState :=
  (refresh_all_data
    { loco_list := .ok [[("Loco No.".data, "278".data)]]
      loco_schedules := .ok []
      traction_failures := .ok []
      wag7_modifications := .ok [] }
    0 emptyState).1

/-- A state reached by a refresh whose Loco_list sheet held the single
identifier `".0"` (a pure float artifact cell): it strips to itself, so it
is stored as is. -/
def searchStDotZero : AppState :=
  (refresh_all_data
    { loco_list := .ok [[("Loco No.".data, ".0".data)]]
      loco_schedules := .ok []
      traction_failures := .ok []
      wag7_modifications := .ok [] }
    0 emptyState).1

/-- C7 (counterexample): the partial is interpolated into the regex
unescaped, so `search(".")`-style metacharacters defeat literal containment:
`search("2.8")` returns `"278"`, which does not contain `"2.8"` as a
case-insensitive literal substring.  Moreover the final filter drops only
identifiers that strip to empty, not those that normalize to empty: the
stored identifier `".0"` is returned by `search("0")` although it
normalizes (`'.0'` removal + strip) to the empty string. -/
theorem c7_search_counterexample :
    (search_locos searchSt278 "2.8".data = ["278".data] ∧
     containsCI "2.8".data "278".data = false) ∧
    (search_locos searchStDotZero "0".data = [".0".data] ∧
     ingestNormalize ".0".data = []) := by
  refine ⟨⟨rfl, rfl⟩, ⟨rfl, rfl⟩⟩

/-- When the pattern has no `'.'` metacharacter, matching it at the start of
a string is plain case-insensitive literal matching. -/
theorem patMatchesAtStart_eq_lit : ∀ {pat s : Str}, '.' ∉ pat →
    patMatchesAtStart pat s = litMatchesAtStart pat s
  | [], _, _ => rfl
  | _ :: _, [], _ => rfl
  | p :: ps, c :: cs, h => by
    have hp : ¬p = '.' := fun hh => h (hh ▸ List.mem_cons_self p ps)
    rw [patMatchesAtStart, litMatchesAtStart, patCharMatches, litCharMatches]
    rw [decide_eq_false hp, Bool.false_or,
      patMatchesAtStart_eq_lit (fun hm => h (List.mem_cons_of_mem p hm))]

/-- When the pattern has no `'.'` metacharacter, the regex `.*pat.*` match
coincides with case-insensitive literal substring containment. -/
theorem regexContains_eq_containsCI : ∀ {pat s : Str}, '.' ∉ pat →
    regexContains pat s = containsCI pat s
  | pat, [], h => by
    rw [regexContains, containsCI, patMatchesAtStart_eq_lit h]
  | pat, c :: cs, h => by
    rw [regexContains, containsCI, patMatchesAtStart_eq_lit h,
      regexContains_eq_containsCI h]

/-- C7 (amended): for every partial inside the modelled regex fragment —
no regex metacharacter except possibly `'.'` — every suggestion returned by
`search_locos` matches the interpolated case-insensitive regex, hence
contains the partial as a case-insensitive literal substring whenever
additionally `'.'` does not occur in it; the list has no duplicates, is
sorted ascending in byte order, has at most 20 entries, and contains no
identifier that strips to the empty string. -/
theorem c7_search_guarantees (st : AppState) (pat : Str)
    (hpat : ∀ c ∈ pat, c ∉ regexMetaChars) :
    (search_locos st pat).Sorted strLeR
  ∧ (search_locos st pat).Nodup
  ∧ (search_locos st pat).length ≤ 20
  ∧ ∀ x ∈ search_locos st pat, (regexContains pat x = true ∧ strip x ≠ []) ∧
      ('.' ∉ pat → containsCI pat x = true) := by
  have hpipe : search_locos st pat =
      ((((st.db.loco_data.filter (fun r => regexContains pat r.loco_no)).map
          (fun r => r.loco_no)).dedup.insertionSort strLeR).take 20).filter
        (fun x => !(strip x == [])) := rfl
  rw [hpipe]
  set base := (st.db.loco_data.filter (fun r => regexContains pat r.loco_no)).map
    (fun r => r.loco_no) with hbase
  have hsorted : (base.dedup.insertionSort strLeR).Sorted strLeR :=
    List.sorted_insertionSort strLeR base.dedup
  have hnodup : (base.dedup.insertionSort strLeR).Nodup :=
    (List.perm_insertionSort strLeR base.dedup).nodup_iff.mpr (List.nodup_dedup base)
  refine ⟨?_, ?_, ?_, ?_⟩
  · exact List.Pairwise.sublist ((List.filter_sublist _).trans (List.take_sublist 20 _)) hsorted
  · exact List.Nodup.sublist ((List.filter_sublist _).trans (List.take_sublist 20 _)) hnodup
  · exact le_trans (List.length_filter_le _ _) (List.length_take_le 20 _)
  · intro x hx
    have hx' := List.mem_filter.mp hx
    have hx2 : x ∈ base.dedup.insertionSort strLeR := List.mem_of_mem_take hx'.1
    have hx1 : x ∈ base := List.mem_dedup.mp
      ((List.perm_insertionSort strLeR base.dedup).mem_iff.mp hx2)
    obtain ⟨r, hr, hrx⟩ := List.mem_map.mp hx1
    have hmatch := (List.mem_filter.mp hr).2
    have hre : regexContains pat x = true := by rw [← hrx]; exact hmatch
    refine ⟨⟨hre, ?_⟩, ?_⟩
    · simpa using hx'.2
    · intro hdot
      rw [← regexContains_eq_containsCI hdot]
      exact hre

/-- Witness for C7's amended theorem: the suggestion `"278"` returned for
the partial `"278"` satisfies all the guarantees. -/
theorem c7_search_guarantees_witness :
    (∀ c ∈ "278".data, c ∉ regexMetaChars) ∧
    "278".data ∈ search_locos searchSt278 "278".data ∧
    ('.' ∉ "278".data) ∧
    (regexContains "278".data "278".data = true ∧ strip "278".data ≠ []) ∧
    containsCI "278".data "278".data = true :=
  ⟨by decide, by decide, by decide,
   ((c7_search_guarantees searchSt278 "278".data (by decide)).2.2.2 "278".data (by decide)).1,
   ((c7_search_guarantees searchSt278 "278".data (by decide)).2.2.2 "278".data (by decide)).2 (by decide)⟩
